import Mathlib

/-!
Verification development for the ICP-MS batch pipeline
(`process_icpms_batch.py`).  Python strings are modelled as `List Char`,
floating-point concentrations as `ℚ` (with `ℝ` where a square root is
taken), missing values (NaN) as `Option`, and pandas tables as lists of
records.  Each definition mirrors one function or expression of the source.
-/

namespace ICPMS

/-! ### Python string primitives -/

/-- Python strings modelled as character lists. -/
abbrev PyStr := List Char

/-- Literal helper: the character list of a Lean string literal. -/
def strL (s : String) : PyStr := s.data

/-- `pat.isPrefixOf s` for Python-style startswith. -/
def pyStartsWith : PyStr → PyStr → Bool
  | [], _ => true
  | _ :: _, [] => false
  | p :: ps, c :: cs => p == c && pyStartsWith ps cs

/-- Python `pat in s` substring containment. -/
def pyContains : PyStr → PyStr → Bool
  | [], pat => pat.isEmpty
  | c :: cs, pat => pyStartsWith pat (c :: cs) || pyContains cs pat

/-- Python `str.strip()` (default: whitespace from both ends). -/
def stripWs (s : PyStr) : PyStr :=
  ((s.dropWhile Char.isWhitespace).reverse.dropWhile Char.isWhitespace).reverse

/-- Python `str.strip(set)`: remove characters of `set` from both ends. -/
def stripChars (set : PyStr) (s : PyStr) : PyStr :=
  ((s.dropWhile (fun c => set.contains c)).reverse.dropWhile
    (fun c => set.contains c)).reverse

/-- Helper for `pyWords`: accumulate the current word (reversed). -/
def wordsAux : PyStr → PyStr → List PyStr
  | [], cur => if cur.isEmpty then [] else [cur.reverse]
  | c :: cs, cur =>
    if c.isWhitespace then
      if cur.isEmpty then wordsAux cs [] else cur.reverse :: wordsAux cs []
    else wordsAux cs (c :: cur)

/-- Python `str.split()` with no argument: split on whitespace runs,
dropping empty pieces. -/
def pyWords (s : PyStr) : List PyStr := wordsAux s []

/-- Python `s.split(sep, 1)` for `sep = "->"`, as used by the mass-shift
branch: split at the first occurrence, `none` when `"->"` does not occur. -/
def splitArrow? : PyStr → Option (PyStr × PyStr)
  | [] => none
  | '-' :: '>' :: rest => some ([], rest)
  | c :: cs => (splitArrow? cs).map (fun p => (c :: p.1, p.2))

/-- Python `s.split(t)` for a single-character separator `t`
(always returns at least one piece). -/
def splitOnChar (t : Char) : PyStr → List PyStr
  | [] => [[]]
  | c :: cs =>
    match splitOnChar t cs with
    | [] => [[c]]
    | h :: r => if c == t then [] :: h :: r else (c :: h) :: r

/-- Value of a nonempty all-digit token, else `none`. -/
def digitsVal? (s : PyStr) : Option Nat :=
  if s.isEmpty then none
  else if s.all Char.isDigit then
    some (s.foldl (fun a c => a * 10 + (c.toNat - 48)) 0)
  else none

/-- Python `int(token)`: optional sign, decimal digits, whitespace padding;
`none` models a raised `ValueError`. -/
def pyIntOf? (s : PyStr) : Option Int :=
  match stripWs s with
  | '-' :: rest => (digitsVal? rest).map (fun n => -(n : Int))
  | '+' :: rest => (digitsVal? rest).map (fun n => (n : Int))
  | t => (digitsVal? t).map (fun n => (n : Int))

/-- Decimal rendering of an integer, as a Python f-string would embed it. -/
def intChars (i : Int) : PyStr := (toString i).data

/-! ### Channel-header parsing (`parse_channel_headers`) -/

/-- One entry of `chan_map` in `parse_channel_headers`. -/
structure ChannelDesc where
  original : PyStr
  channel_id : PyStr
  element : PyStr
  nominal_mass : Int
  analyzed_mass : Int
  gas_mode : PyStr
  is_shift : Bool
deriving DecidableEq, Repr

/-- The per-column body of the loop in `parse_channel_headers`
(lines 166-207): `none` models `continue` (skipped column), reached on the
explicit skip tests and on a caught `ValueError` / `IndexError`. -/
def parse_channel_header (h : PyStr) : Option ChannelDesc :=
  let s := stripWs h
  if pyStartsWith (strL "Unnamed:") s then none
  else if s.isEmpty then none
  else
    match splitArrow? s with
    | some (left, right0) =>
      match (pyWords (stripWs left)).head? with
      | none => none
      | some t0 =>
        match pyIntOf? t0 with
        | none => none
        | some nom =>
          let right := stripWs right0
          match pyWords right with
          | r0 :: r1 :: _ =>
            match pyIntOf? r0 with
            | none => none
            | some analyzed =>
              let gas := stripWs ((splitOnChar ']'
                ((splitOnChar '[' right).getLastD [])).headD [])
              some { original := h
                     channel_id := r1 ++ intChars nom ++ strL "to" ++
                       intChars analyzed ++ strL "_" ++ gas
                     element := r1
                     nominal_mass := nom
                     analyzed_mass := analyzed
                     gas_mode := gas
                     is_shift := true }
          | _ => none
    | none =>
      match pyWords s with
      | p0 :: p1 :: rest =>
        match pyIntOf? p0 with
        | none => none
        | some nom =>
          let gas := stripChars (strL "[]") ((p0 :: p1 :: rest).getLastD [])
          some { original := h
                 channel_id := p1 ++ intChars nom ++ strL "_" ++ gas
                 element := p1
                 nominal_mass := nom
                 analyzed_mass := nom
                 gas_mode := gas
                 is_shift := false }
      | _ => none

/-- The `chan_map` rows produced by the loop of `parse_channel_headers`
over the non-metadata columns, in column order. -/
def parse_channel_headers (hs : List PyStr) : List ChannelDesc :=
  hs.filterMap parse_channel_header

/-! ### Long measurement table and blank statistics (`compute_blank_stats`) -/

/-- One row of the long table `long_df`: `raw_conc` is `none` where
`pd.to_numeric(..., errors="coerce")` produced NaN. -/
structure Meas where
  sample_id : PyStr
  channel_id : PyStr
  element : PyStr
  raw_conc : Option ℚ
deriving DecidableEq, Repr

/-- Blank detection: `sample_id` contains the substring `"BLANK"`. -/
def isBlankRow (r : Meas) : Bool := pyContains r.sample_id (strL "BLANK")

/-- Arithmetic mean of a rational list (used only on nonempty lists). -/
def ratMean (l : List ℚ) : ℚ := l.sum / l.length

/-- Sample variance with `ddof = 1`, as pandas `std` squares it
(used only on lists of length at least 2). -/
def ratSampleVar (l : List ℚ) : ℚ :=
  ((l.map (fun x => (x - ratMean l) ^ 2)).sum) / ((l.length : ℚ) - 1)

/-- The numeric blank observations of one channel, in row order
(pandas `groupby("channel_id")` aggregations skip NaN). -/
def chanBlankVals (rows : List Meas) (c : PyStr) : List ℚ :=
  ((rows.filter (fun r => isBlankRow r && r.channel_id == c)).filterMap
    (fun r => r.raw_conc))

/-- The numeric blank observations of one element, in row order. -/
def elemBlankVals (rows : List Meas) (e : PyStr) : List ℚ :=
  ((rows.filter (fun r => isBlankRow r && r.element == e)).filterMap
    (fun r => r.raw_conc))

/-- `avg_blank` per channel in `stats_chan`: `none` covers both a channel
absent from the blank table and a NaN mean (no numeric observation) —
either way downstream merges see NaN. -/
def avg_blank_chan (rows : List Meas) (c : PyStr) : Option ℚ :=
  let l := chanBlankVals rows c
  if l.isEmpty then none else some (ratMean l)

/-- `avg_blank` per element in `stats_elem`. -/
def avg_blank_elem (rows : List Meas) (e : PyStr) : Option ℚ :=
  let l := elemBlankVals rows e
  if l.isEmpty then none else some (ratMean l)

/-- `sd_blank` per channel: pandas sample standard deviation, NaN (`none`)
with fewer than two numeric observations. -/
noncomputable def sd_blank_chan (rows : List Meas) (c : PyStr) : Option ℝ :=
  let l := chanBlankVals rows c
  if l.length < 2 then none else some (Real.sqrt ((ratSampleVar l : ℚ) : ℝ))

/-- `sd_blank` per element. -/
noncomputable def sd_blank_elem (rows : List Meas) (e : PyStr) : Option ℝ :=
  let l := elemBlankVals rows e
  if l.length < 2 then none else some (Real.sqrt ((ratSampleVar l : ℚ) : ℝ))

/-- `mdl = 3 * sd_blank` per channel (NaN propagates). -/
noncomputable def mdl_chan (rows : List Meas) (c : PyStr) : Option ℝ :=
  (sd_blank_chan rows c).map (fun s => 3 * s)

/-- `mdl = 3 * sd_blank` per element (NaN propagates). -/
noncomputable def mdl_elem (rows : List Meas) (e : PyStr) : Option ℝ :=
  (sd_blank_elem rows e).map (fun s => 3 * s)

/-! ### Dilution-factor join and correction (`join_and_correct`) -/

/-- `(raw - avg_blank) * df`, optional `/ 1000`, then the negative clamp
(`df.loc[df["corrected"] < 0] = 0`), for a numeric raw value. -/
def correctedValue (raw avg dfv : ℚ) (apply_divide1000 : Bool) : ℚ :=
  let c0 := (raw - avg) * dfv
  let c1 := if apply_divide1000 then c0 / 1000 else c0
  if c1 < 0 then 0 else c1

/-- One row of the corrected table `corrected_df`. -/
structure CRow where
  sample_id : PyStr
  channel_id : PyStr
  element : PyStr
  raw_conc : Option ℚ
  df_used : ℚ
  avg_blank : ℚ
  corrected : Option ℚ
deriving DecidableEq, Repr

/-- The value returned by `join_and_correct`: a single table object whose
`attrs` metadata carries the unmatched-sample list
(`df.attrs["unmatched_samples"]` in the source). -/
structure CorrectedResult where
  table : List CRow
  attrsUnmatched : List PyStr
deriving DecidableEq, Repr

/-- Left-merge lookup of the digest table by `sample_id`
(digest keys are assumed unique, as a dilution-factor table is). -/
def lookupDigest (digest : List (PyStr × ℚ)) (sid : PyStr) : Option ℚ :=
  (digest.find? (fun p => p.1 == sid)).map (fun p => p.2)

/-- pandas `.unique()`: first-appearance deduplication. -/
def dedupKeep (l : List PyStr) : List PyStr :=
  l.foldl (fun acc x => if acc.contains x then acc else acc ++ [x]) []

/-- The quality-control substrings filtered out of the unmatched report:
`['ICV', 'ICB', 'BLANK', 'SRM_']`. -/
def qcTokens : List PyStr :=
  [strL "ICV", strL "ICB", strL "BLANK", strL "SRM_"]

/-- `any(qc in s for qc in [...])` in the unmatched filter. -/
def isQCName (s : PyStr) : Bool := qcTokens.any (fun t => pyContains s t)

/-- `join_and_correct`: digest left-join with `fillna(default_df)`,
channel-blank left-join with `fillna(0.0)` (the channel-mean table is
passed in as `chanAvg`, computed by `compute_blank_stats` on the same
rows in `process_batch`), correction, clamp; the filtered unmatched list
is stored in the result's `attrs` metadata. -/
def join_and_correct (rows : List Meas) (digest : List (PyStr × ℚ))
    (chanAvg : PyStr → Option ℚ) (default_df : ℚ)
    (apply_divide1000 : Bool) : CorrectedResult :=
  let unmatchedAll := dedupKeep
    ((rows.filter (fun r => (lookupDigest digest r.sample_id).isNone)).map
      (fun r => r.sample_id))
  let unmatchedSamplesOnly := unmatchedAll.filter (fun s => !(isQCName s))
  let table := rows.map (fun r =>
    let dfu := (lookupDigest digest r.sample_id).getD default_df
    let avg := (chanAvg r.channel_id).getD 0
    { sample_id := r.sample_id
      channel_id := r.channel_id
      element := r.element
      raw_conc := r.raw_conc
      df_used := dfu
      avg_blank := avg
      corrected := r.raw_conc.map (fun x => correctedValue x avg dfu apply_divide1000) })
  { table := table, attrsUnmatched := unmatchedSamplesOnly }

/-! ### Below-detection classifier (`build_bdl_table`) -/

/-- The row condition of `build_bdl_table`:
`(raw_conc - avg_blank) < mdl`, where a NaN on either side makes the
pandas comparison `False`. -/
def bdl_cond (r : CRow) (m : Option ℝ) : Prop :=
  match r.raw_conc, m with
  | some x, some md => (x : ℝ) - (r.avg_blank : ℝ) < md
  | _, _ => False

/-- Membership of a corrected row in the below-detection table, with the
element-level `mdl` column merged in (`elemMdlF` is `mdl_elem` of the run
rows in `process_batch`). -/
def bdlFlag (elemMdlF : PyStr → Option ℝ) (r : CRow) : Prop :=
  bdl_cond r (elemMdlF r.element)

/-- Modelled from the spec words (4.8), for comparison with the code:
a measurement is below detection iff
`(raw_concentration - element_blank_mean) < element_detection_limit`. -/
def bdlFlagSpecClaim (rows : List Meas) (r : CRow) : Prop :=
  match r.raw_conc, avg_blank_elem rows r.element, mdl_elem rows r.element with
  | some x, some m, some dl => (x : ℝ) - (m : ℝ) < dl
  | _, _, _ => False

/-! ### Sample-only filter of `process_batch` (lines 747-752) -/

/-- Case-insensitive substring containment, as
`str.contains("BLANK|ICV|DUP", case=False)` performs. -/
def containsCI (s pat : PyStr) : Bool :=
  pyContains (s.map Char.toUpper) (pat.map Char.toUpper)

/-- The exclusion predicate of `samples_df`: `sample_id` contains `BLANK`,
`ICV` or `DUP` case-insensitively, or starts with `SRM_`. -/
def excludedFromSamples (s : PyStr) : Bool :=
  containsCI s (strL "BLANK") || containsCI s (strL "ICV") ||
    containsCI s (strL "DUP") || pyStartsWith (strL "SRM_") s

/-- `samples_df`: the corrected rows passed to the report writer. -/
def samplesTable (corr : List CRow) : List CRow :=
  corr.filter (fun r => !(excludedFromSamples r.sample_id))

/-! ### Best-channel selection (`select_best_channels`) -/

/-- One per-channel recovery row of `icv_sub` / `ref_sub`
(`rec` is `none` where the recovery is NaN, e.g. a missing target). -/
structure RecRow where
  channel_id : PyStr
  recovery : Option ℚ
deriving DecidableEq, Repr

/-- One row of the per-element `merged` frame. -/
structure MergedRow where
  channel_id : PyStr
  icv_recovery : Option ℚ
  ref_recovery : Option ℚ
deriving DecidableEq, Repr

/-- Key order of `pd.merge(..., how="outer", sort=False)`: first
appearance, left keys before right-only keys. -/
def outerMergeKeys (L R : List RecRow) : List PyStr :=
  dedupKeep (L.map (fun r => r.channel_id) ++ R.map (fun r => r.channel_id))

/-- The per-element outer merge of ICV and REF recoveries on `channel_id`:
rows grouped by key in first-appearance order, unmatched sides NaN. -/
def outerMerge (L R : List RecRow) : List MergedRow :=
  (outerMergeKeys L R).flatMap (fun k =>
    let ls := L.filter (fun r => r.channel_id == k)
    let rs := R.filter (fun r => r.channel_id == k)
    match ls, rs with
    | [], rs2 => rs2.map (fun r => { channel_id := k, icv_recovery := none,
                                     ref_recovery := r.recovery })
    | ls2, [] => ls2.map (fun l => { channel_id := k, icv_recovery := l.recovery,
                                     ref_recovery := none })
    | ls2, rs2 => ls2.flatMap (fun l => rs2.map (fun r =>
        { channel_id := k, icv_recovery := l.recovery, ref_recovery := r.recovery })))

/-- `(rec >= lo) & (rec <= hi)`: NaN compares `False` on both sides. -/
def passBand (lo hi : ℚ) : Option ℚ → Bool
  | some v => decide (lo ≤ v) && decide (v ≤ hi)
  | none => false

/-- `icv_pass & ref_pass` of a merged row. -/
def passBoth (icv_lo icv_hi ref_lo ref_hi : ℚ) (m : MergedRow) : Bool :=
  passBand icv_lo icv_hi m.icv_recovery && passBand ref_lo ref_hi m.ref_recovery

/-- `dist100 = (ref_recovery_pct - 100).abs()` (NaN stays NaN). -/
def dist100 (m : MergedRow) : Option ℚ := m.ref_recovery.map (fun v => |v - 100|)

/-- Strictly smaller distance, with NaN sorted last
(`sort_values` default `na_position="last"`). -/
def betterDist : Option ℚ → Option ℚ → Bool
  | some a, some b => decide (a < b)
  | some _, none => true
  | none, _ => false

/-- `merged.sort_values("dist100").iloc[0]`: a row of minimal distance to
100; among equal distances the earlier row is kept. -/
def argminDist (l : List MergedRow) : Option MergedRow :=
  l.foldl (fun best m =>
    match best with
    | none => some m
    | some b => if betterDist (dist100 m) (dist100 b) then some m else some b)
    none

/-- The per-element body of `select_best_channels` (lines 445-483):
`none` models the null-selection record of an element with no ICV/REF
rows; otherwise the chosen merged row (`both.iloc[0]`, else the
closest-to-100 fallback). -/
def select_best_channel (icv_lo icv_hi ref_lo ref_hi : ℚ)
    (L R : List RecRow) : Option MergedRow :=
  let merged := outerMerge L R
  if merged.isEmpty then none
  else
    match merged.filter (passBoth icv_lo icv_hi ref_lo ref_hi) with
    | c :: _ => some c
    | [] => argminDist merged

/-! ### Loaders (`load_digest_file`, `load_icv_file`) -/

/-- Error message of the explicit schema check in `load_icv_file`. -/
def icvSchemaError : PyStr :=
  strL "ValueError: ICV file must have element column"

/-- The bare `KeyError` raised by `d[sample_id]` normalization. -/
def digestKeyErrorSample : PyStr := strL "KeyError: sample_id"

/-- The bare `KeyError` raised by the final `d[[sample_id, df]]` selection. -/
def digestKeyErrorDf : PyStr := strL "KeyError: df not in index"

/-- `load_digest_file` on a digest table with the given column names:
no schema validation; missing columns surface as `KeyError` from the
normalization (line 124) or the column selection (line 125). -/
def load_digest_file (cols : List PyStr) : Except PyStr Unit :=
  if !(cols.contains (strL "sample_id")) then Except.error digestKeyErrorSample
  else if !(cols.contains (strL "df")) then Except.error digestKeyErrorDf
  else Except.ok ()

/-- `load_icv_file` on an ICV table with the given column names: the only
check is for the `element` column (lines 139-140); `icv_target` is not
validated at load. -/
def load_icv_file (cols : List PyStr) : Except PyStr Unit :=
  if !(cols.contains (strL "element")) then Except.error icvSchemaError
  else Except.ok ()

/-! ### Concrete run data used by witnesses and counterexamples -/

/-- A run with element X on two channels A and B: channel-level blank means
13 (A) and 8 (B), element-level blank mean 10, element-level sample SD 3,
hence element MDL 9. -/
def c1Rows : List Meas :=
  [⟨strL "BLANK_1", strL "A", strL "X", some 13⟩,
   ⟨strL "BLANK_2", strL "A", strL "X", some 13⟩,
   ⟨strL "BLANK_3", strL "B", strL "X", some 7⟩,
   ⟨strL "BLANK_4", strL "B", strL "X", some 7⟩,
   ⟨strL "BLANK_5", strL "B", strL "X", some 10⟩,
   ⟨strL "S1", strL "A", strL "X", some 20⟩,
   ⟨strL "S2", strL "B", strL "X", some 17⟩]

/-- The corrected row of sample S1 (channel A, raw 20). -/
def c1RowS1 : CRow :=
  ⟨strL "S1", strL "A", strL "X", some 20, 1, 13, some 7⟩

/-- The corrected row of sample S2 (channel B, raw 17): its blank-subtracted
value 17 - 8 = 9 sits exactly on the element MDL. -/
def c1RowS2 : CRow :=
  ⟨strL "S2", strL "B", strL "X", some 17, 1, 8, some 9⟩

/-- ICV recoveries, channel B listed before channel A, both at 100 %. -/
def c4L : List RecRow := [⟨strL "B", some 100⟩, ⟨strL "A", some 100⟩]

/-- REF recoveries, channel B listed before channel A, both at 100 %. -/
def c4R : List RecRow := [⟨strL "B", some 100⟩, ⟨strL "A", some 100⟩]

/-- ICV recoveries of the spec scenario for element As:
As75_He at 85 %, As75to91_O2 at 98 %. -/
def c4wL : List RecRow :=
  [⟨strL "As75_He", some 85⟩, ⟨strL "As75to91_O2", some 98⟩]

/-- REF recoveries of the spec scenario for element As:
As75_He at 95 %, As75to91_O2 at 101 %. -/
def c4wR : List RecRow :=
  [⟨strL "As75_He", some 95⟩, ⟨strL "As75to91_O2", some 101⟩]

/-- One sample S1 with raw 105. -/
def c5Rows : List Meas := [⟨strL "S1", strL "A", strL "X", some 105⟩]

/-- Digest table giving S1 the dilution factor 2. -/
def c5Digest : List (PyStr × ℚ) := [(strL "S1", 2)]

/-- A channel-blank table assigning mean 5 to every channel. -/
def c5ChanAvg : PyStr → Option ℚ := fun _ => some 5

/-- The corrected row of S1: (105 - 5) * 2 = 200 with no unit scaling. -/
def c5Row : CRow := ⟨strL "S1", strL "A", strL "X", some 105, 2, 5, some 200⟩

/-- An ordinary sample FIELD_001 that is absent from the digest table. -/
def c6Rows : List Meas := [⟨strL "FIELD_001", strL "A", strL "X", some 5⟩]

/-- A run whose element X has a single blank observation. -/
def c7Rows : List Meas :=
  [⟨strL "BLANK_1", strL "A", strL "X", some 5⟩,
   ⟨strL "S1", strL "A", strL "X", some 100⟩]

/-- The corrected row of S1 in the single-blank run. -/
def c7Row : CRow := ⟨strL "S1", strL "A", strL "X", some 100, 1, 5, some 95⟩

/-- An ordinary sample whose identifier merely contains the token ICV,
absent from the digest table. -/
def c9Rows : List Meas := [⟨strL "MICV_SOIL", strL "A", strL "X", some 2⟩]

/-- The corrected row of MICV_SOIL (no blanks, so blank mean 0). -/
def c9Row : CRow := ⟨strL "MICV_SOIL", strL "A", strL "X", some 2, 1, 0, some 2⟩

/-! ### Helper lemmas -/

/-- The first element of `l.filter p` is the first element of `l`
satisfying `p`. -/
theorem filter_first {α : Type} (p : α → Bool) :
    ∀ l : List α, l.any p = true →
      ∃ c pre suf, l = pre ++ c :: suf ∧ p c = true ∧
        (∀ m ∈ pre, p m = false) ∧ l.filter p = c :: suf.filter p := by
  intro l
  induction l with
  | nil => intro h; simp at h
  | cons x xs ih =>
    intro h
    cases hp : p x with
    | true =>
      exact ⟨x, [], xs, rfl, hp, by simp, by simp [List.filter_cons, hp]⟩
    | false =>
      have hxs : xs.any p = true := by simpa [List.any_cons, hp] using h
      obtain ⟨c, pre, suf, hl, hc, hpre, hf⟩ := ih hxs
      refine ⟨c, x :: pre, suf, by simp [hl], hc, ?_, ?_⟩
      · intro m hm
        rcases List.mem_cons.mp hm with hm1 | hm2
        · simpa [hm1] using hp
        · exact hpre m hm2
      · simp [List.filter_cons, hp, hf]

/-- The numeric element-level blank observations of the two-channel run. -/
theorem c1_blank_vals : elemBlankVals c1Rows (strL "X") = [13, 13, 7, 7, 10] := by
  decide

/-- Element-level blank mean of the two-channel run. -/
theorem c1_elem_avg : avg_blank_elem c1Rows (strL "X") = some 10 := by
  simp only [avg_blank_elem, c1_blank_vals]
  norm_num [ratMean]

/-- Element-level detection limit of the two-channel run. -/
theorem c1_mdl : mdl_elem c1Rows (strL "X") = some 9 := by
  have hvar : ratSampleVar [13, 13, 7, 7, 10] = 9 := by
    norm_num [ratSampleVar, ratMean]
  simp only [mdl_elem, sd_blank_elem, c1_blank_vals, hvar]
  norm_num
  rw [show (9:ℝ) = 3 ^ 2 by norm_num, Real.sqrt_sq (by norm_num : (0:ℝ) ≤ 3)]
  norm_num

/-- The corrected table of the two-channel run, evaluated. -/
theorem c1_table :
    (join_and_correct c1Rows [] (avg_blank_chan c1Rows) 1 false).table =
      [⟨strL "BLANK_1", strL "A", strL "X", some 13, 1, 13, some 0⟩,
       ⟨strL "BLANK_2", strL "A", strL "X", some 13, 1, 13, some 0⟩,
       ⟨strL "BLANK_3", strL "B", strL "X", some 7, 1, 8, some 0⟩,
       ⟨strL "BLANK_4", strL "B", strL "X", some 7, 1, 8, some 0⟩,
       ⟨strL "BLANK_5", strL "B", strL "X", some 10, 1, 8, some 2⟩,
       c1RowS1, c1RowS2] := by
  simp [c1Rows, c1RowS1, c1RowS2, join_and_correct, lookupDigest,
    avg_blank_chan, chanBlankVals, isBlankRow, correctedValue,
    pyContains, pyStartsWith, strL, ratMean]
  norm_num

/-- The corrected table of the dilution-factor example run, evaluated. -/
theorem c5_table :
    (join_and_correct c5Rows c5Digest c5ChanAvg 1 false).table = [c5Row] := by
  simp [c5Rows, c5Digest, c5ChanAvg, c5Row, join_and_correct, lookupDigest,
    correctedValue]
  norm_num

/-- The corrected table of the token-containing-sample run, evaluated. -/
theorem c9_table :
    (join_and_correct c9Rows [] (avg_blank_chan c9Rows) 1 false).table =
      [c9Row] := by
  simp [c9Rows, c9Row, join_and_correct, lookupDigest, avg_blank_chan,
    chanBlankVals, isBlankRow, correctedValue, pyContains, pyStartsWith, strL]

/-! ### Claim theorems -/

/-- Claim C2 (code bug): on the documented plain-mass header form
63--Cu--[ He ] (two-space separated, space-padded gas), the parser takes
the last whitespace token of the header, which is the lone closing
bracket, strips the bracket characters, and so produces gas_mode empty
and channel_id Cu63_ instead of the specified He and Cu63_He.  Element,
masses and the shift flag come out as specified. -/
theorem C2_bug_eval :
    parse_channel_header (strL "63  Cu  [ He ]") =
      some { original := strL "63  Cu  [ He ]"
             channel_id := strL "Cu63_"
             element := strL "Cu"
             nominal_mass := 63
             analyzed_mass := 63
             gas_mode := []
             is_shift := false } ∧
    (parse_channel_header (strL "63  Cu  [ He ]")).map
        (fun d => d.gas_mode) ≠ some (strL "He") ∧
    (parse_channel_header (strL "63  Cu  [ He ]")).map
        (fun d => d.channel_id) ≠ some (strL "Cu63_He") := by
  refine ⟨by decide, by decide, by decide⟩

/-- Claim C3, counterexample: the two distinct parseable headers
63--Cu--[ He ] and 63--Cu--[ H2 ] are both assigned channel_id Cu63_,
so the parser is not injective on parseable headers. -/
theorem C3_counterexample :
    strL "63  Cu  [ He ]" ≠ strL "63  Cu  [ H2 ]" ∧
    (parse_channel_header (strL "63  Cu  [ He ]")).isSome = true ∧
    (parse_channel_header (strL "63  Cu  [ H2 ]")).isSome = true ∧
    (parse_channel_header (strL "63  Cu  [ He ]")).map (fun d => d.channel_id) =
      (parse_channel_header (strL "63  Cu  [ H2 ]")).map (fun d => d.channel_id) := by
  refine ⟨by decide, by decide, by decide, by decide⟩

/-- Claim C3 (amended): channel_id is a pure deterministic function of the
header string alone — the descriptor a header receives does not depend on
the other headers or on its position in the column list — but it is not
injective: distinct parseable headers can be assigned the same
channel_id. -/
theorem C3_amended_thm :
    (∀ (L1 L2 : List PyStr) (h : PyStr),
        parse_channel_headers (L1 ++ h :: L2) =
          parse_channel_headers L1 ++ (parse_channel_header h).toList ++
            parse_channel_headers L2) ∧
    (∃ g1 g2 : PyStr, g1 ≠ g2 ∧
        (parse_channel_header g1).isSome = true ∧
        (parse_channel_header g2).isSome = true ∧
        (parse_channel_header g1).map (fun d => d.channel_id) =
          (parse_channel_header g2).map (fun d => d.channel_id)) := by
  constructor
  · intro L1 L2 h
    cases hfh : parse_channel_header h <;>
      simp [parse_channel_headers, hfh]
  · exact ⟨strL "63  Cu  [ He ]", strL "63  Cu  [ H2 ]",
      by decide, by decide, by decide, by decide⟩

/-- Claim C5 (confirmed): the corrected value is
(raw - channel blank mean) * dilution factor, divided by 1000 exactly when
the unit-scale flag is set, clamped at zero from below; hence every
numeric corrected value in the corrected table is nonnegative, and
raw 105, blank mean 5, factor 2 without unit scaling gives 200. -/
theorem C5_thm :
    (∀ (raw avg dfv : ℚ) (b : Bool), 0 ≤ correctedValue raw avg dfv b) ∧
    (∀ raw avg dfv : ℚ,
        correctedValue raw avg dfv false = max 0 ((raw - avg) * dfv) ∧
        correctedValue raw avg dfv true = max 0 ((raw - avg) * dfv / 1000)) ∧
    correctedValue 105 5 2 false = 200 ∧
    (∀ (rows : List Meas) (digest : List (PyStr × ℚ))
        (chanAvg : PyStr → Option ℚ) (dd : ℚ) (b : Bool) (r : CRow),
        r ∈ (join_and_correct rows digest chanAvg dd b).table →
          r.corrected = r.raw_conc.map
            (fun v => correctedValue v r.avg_blank r.df_used b) ∧
          ∀ x, r.corrected = some x → 0 ≤ x) := by
  have hnn : ∀ (raw avg dfv : ℚ) (b : Bool), 0 ≤ correctedValue raw avg dfv b := by
    intro raw avg dfv b
    unfold correctedValue
    dsimp only
    split <;> split <;> rename_i h <;>
      first
        | exact le_refl 0
        | exact le_of_not_lt h
  refine ⟨hnn, ?_, by norm_num [correctedValue], ?_⟩
  · intro raw avg dfv
    constructor
    · unfold correctedValue
      simp only [Bool.false_eq_true, if_false]
      split <;> rename_i h
      · exact (max_eq_left h.le).symm
      · exact (max_eq_right (not_lt.mp h)).symm
    · unfold correctedValue
      simp only [if_true]
      split <;> rename_i h
      · exact (max_eq_left h.le).symm
      · exact (max_eq_right (not_lt.mp h)).symm
  · intro rows digest chanAvg dd b r hr
    simp only [join_and_correct, List.mem_map] at hr
    obtain ⟨m0, hm0, rfl⟩ := hr
    refine ⟨rfl, ?_⟩
    intro x hx
    cases hraw : m0.raw_conc with
    | none => simp [hraw] at hx
    | some v =>
      simp only [hraw, Option.map_some] at hx
      have hx2 : correctedValue v ((chanAvg m0.channel_id).getD 0)
          ((lookupDigest digest m0.sample_id).getD dd) b = x := by
        simpa using hx
      rw [← hx2]
      exact hnn _ _ _ _

/-- Claim C5, witness: the corrected row of sample S1 (raw 105, blank mean
5, factor 2, no unit scaling) is in the corrected table with value 200,
which is nonnegative as the theorem demands. -/
theorem C5_witness :
    c5Row ∈ (join_and_correct c5Rows c5Digest c5ChanAvg 1 false).table ∧
    c5Row.corrected = some 200 ∧ (0:ℚ) ≤ 200 := by
  have hmem : c5Row ∈ (join_and_correct c5Rows c5Digest c5ChanAvg 1 false).table := by
    rw [c5_table]; exact List.mem_singleton.mpr rfl
  exact ⟨hmem, rfl,
    (C5_thm.2.2.2 c5Rows c5Digest c5ChanAvg 1 false c5Row hmem).2 200 rfl⟩

/-- Claim C7 (confirmed): with fewer than two numeric blank observations
the per-element and per-channel standard deviation and detection limit are
produced as no-value (none), never zero, and a below-detection comparison
against a no-value detection limit classifies the row as not below
detection. -/
theorem C7_thm :
    ∀ (rows : List Meas) (e c : PyStr) (r : CRow),
      ((elemBlankVals rows e).length < 2 →
        sd_blank_elem rows e = none ∧ mdl_elem rows e = none) ∧
      ((chanBlankVals rows c).length < 2 →
        sd_blank_chan rows c = none ∧ mdl_chan rows c = none) ∧
      (mdl_elem rows r.element = none → ¬ bdlFlag (mdl_elem rows) r) := by
  intro rows e c r
  refine ⟨?_, ?_, ?_⟩
  · intro h
    have hsd : sd_blank_elem rows e = none := by
      simp only [sd_blank_elem]
      rw [if_pos h]
    exact ⟨hsd, by simp [mdl_elem, hsd]⟩
  · intro h
    have hsd : sd_blank_chan rows c = none := by
      simp only [sd_blank_chan]
      rw [if_pos h]
    exact ⟨hsd, by simp [mdl_chan, hsd]⟩
  · intro hm hflag
    cases hraw : r.raw_conc <;>
      simp [bdlFlag, bdl_cond, hm, hraw] at hflag

/-- Claim C7, witness: the run with a single blank observation for element
X has no-value SD and detection limit, and its sample row is not flagged
below detection. -/
theorem C7_witness :
    (elemBlankVals c7Rows (strL "X")).length < 2 ∧
    sd_blank_elem c7Rows (strL "X") = none ∧
    mdl_elem c7Rows (strL "X") = none ∧
    ¬ bdlFlag (mdl_elem c7Rows) c7Row := by
  have h := C7_thm c7Rows (strL "X") (strL "A") c7Row
  have hlen : (elemBlankVals c7Rows (strL "X")).length < 2 := by decide
  obtain ⟨hsd, hmdl⟩ := h.1 hlen
  exact ⟨hlen, hsd, hmdl, h.2.2 hmdl⟩

/-- Claim C8, counterexample: an ICV table that has an element column but
no icv_target column loads successfully — loading does not fail for every
missing required column of the calibration-target schema. -/
theorem C8_counterexample :
    load_icv_file [strL "element"] = Except.ok () ∧
    ([strL "element"] : List PyStr).contains (strL "icv_target") = false := by
  refine ⟨rfl, by decide⟩

/-- Claim C8 (amended): loading the ICV table fails with the descriptive
schema error exactly when the element column is missing — a missing
icv_target column passes loading unchecked — and loading the digest table
fails exactly when sample_id or df is missing, with a bare key error that
does not describe the expected schema. -/
theorem C8_amended_thm :
    ∀ colsI colsD : List PyStr,
      (colsI.contains (strL "element") = false →
        load_icv_file colsI = Except.error icvSchemaError) ∧
      (colsI.contains (strL "element") = true →
        load_icv_file colsI = Except.ok ()) ∧
      (colsD.contains (strL "sample_id") = false →
        load_digest_file colsD = Except.error digestKeyErrorSample) ∧
      (colsD.contains (strL "sample_id") = true →
        colsD.contains (strL "df") = false →
        load_digest_file colsD = Except.error digestKeyErrorDf) ∧
      (colsD.contains (strL "sample_id") = true →
        colsD.contains (strL "df") = true →
        load_digest_file colsD = Except.ok ()) := by
  intro colsI colsD
  refine ⟨fun h1 => ?_, fun h1 => ?_, fun h1 => ?_,
    fun h1 h2 => ?_, fun h1 h2 => ?_⟩
  · simp only [load_icv_file]; rw [h1]; rfl
  · simp only [load_icv_file]; rw [h1]; rfl
  · simp only [load_digest_file]; rw [h1]; rfl
  · simp only [load_digest_file]; rw [h1, h2]; rfl
  · simp only [load_digest_file]; rw [h1, h2]; rfl

/-- Claim C8, witness: a table without the element column is rejected with
the schema error, and a digest table with sample_id but no df column is
rejected with the df key error. -/
theorem C8_witness :
    load_icv_file [strL "x"] = Except.error icvSchemaError ∧
    load_digest_file [strL "sample_id"] = Except.error digestKeyErrorDf := by
  have h := C8_amended_thm [strL "x"] [strL "sample_id"]
  exact ⟨h.1 (by decide), h.2.2.2.1 (by decide) (by decide)⟩

/-- Claim C10 (confirmed): the per-sample table handed to the report
writer is exactly the corrected rows whose sample_id does not contain
BLANK, ICV or DUP case-insensitively and does not start with SRM_; any
row containing DUP is excluded. -/
theorem C10_thm :
    (∀ (corr : List CRow) (r : CRow),
        r ∈ samplesTable corr ↔
          r ∈ corr ∧ excludedFromSamples r.sample_id = false) ∧
    (∀ s : PyStr, containsCI s (strL "DUP") = true →
        excludedFromSamples s = true) := by
  constructor
  · intro corr r
    simp [samplesTable, List.mem_filter]
  · intro s h
    simp [excludedFromSamples, h]

/-- Claim C10, witness: the duplicate sample SOIL_DUP_1 contains DUP and
is excluded from the per-sample table predicate. -/
theorem C10_witness :
    containsCI (strL "SOIL_DUP_1") (strL "DUP") = true ∧
    excludedFromSamples (strL "SOIL_DUP_1") = true := by
  exact ⟨by decide, C10_thm.2 (strL "SOIL_DUP_1") (by decide)⟩

/-- Claim C1 (amended): for every row of the corrected table, the
below-detection classifier flags it iff raw_concentration minus the
channel-level blank mean joined into the row by join_and_correct is
strictly less than the element-level detection limit; a row whose
blank-subtracted value exactly equals the limit is not flagged.  The
subtracted mean is the channel-level one, not the element-level one. -/
theorem C1_amended_thm :
    ∀ (rows : List Meas) (digest : List (PyStr × ℚ)) (dd : ℚ) (b : Bool)
      (r : CRow),
      r ∈ (join_and_correct rows digest (avg_blank_chan rows) dd b).table →
        r.avg_blank = (avg_blank_chan rows r.channel_id).getD 0 ∧
        (bdlFlag (mdl_elem rows) r ↔
          ∃ x m, r.raw_conc = some x ∧ mdl_elem rows r.element = some m ∧
            (x : ℝ) - (r.avg_blank : ℝ) < m) ∧
        (∀ x m, r.raw_conc = some x → mdl_elem rows r.element = some m →
          (x : ℝ) - (r.avg_blank : ℝ) = m → ¬ bdlFlag (mdl_elem rows) r) := by
  intro rows digest dd b r hr
  simp only [join_and_correct, List.mem_map] at hr
  obtain ⟨m0, hm0, rfl⟩ := hr
  refine ⟨rfl, ?_, ?_⟩
  · cases hraw : m0.raw_conc <;>
      cases hm : mdl_elem rows m0.element <;>
      simp [bdlFlag, bdl_cond, hraw, hm]
  · intro x m hx hm hb hflag
    have hx2 : m0.raw_conc = some x := hx
    have hm2 : mdl_elem rows m0.element = some m := hm
    simp only [bdlFlag, bdl_cond, hx2, hm2] at hflag
    rw [hb] at hflag
    exact lt_irrefl m hflag

/-- Claim C1, counterexample: in the two-channel run, the sample-S1 row
(raw 20, channel blank mean 13, element blank mean 10, element MDL 9) is
flagged by the classifier (20 - 13 = 7 < 9), yet under the claimed
element-level-mean condition it would not be (20 - 10 = 10 is not < 9). -/
theorem C1_counterexample :
    c1RowS1 ∈ (join_and_correct c1Rows [] (avg_blank_chan c1Rows) 1 false).table ∧
    bdlFlag (mdl_elem c1Rows) c1RowS1 ∧
    ¬ bdlFlagSpecClaim c1Rows c1RowS1 := by
  refine ⟨?_, ?_, ?_⟩
  · rw [c1_table]; simp
  · show bdl_cond c1RowS1 (mdl_elem c1Rows (strL "X"))
    rw [c1_mdl]
    show ((20:ℚ):ℝ) - ((13:ℚ):ℝ) < (9:ℝ)
    push_cast
    norm_num
  · intro h
    have h2 : ((20:ℚ):ℝ) - ((10:ℚ):ℝ) < (9:ℝ) := by
      have h3 : bdlFlagSpecClaim c1Rows c1RowS1 := h
      unfold bdlFlagSpecClaim at h3
      rw [show c1RowS1.element = strL "X" from rfl, c1_elem_avg, c1_mdl] at h3
      exact h3
    push_cast at h2
    norm_num at h2

/-- Claim C1, witness: the sample-S2 row of the two-channel run sits
exactly on the detection limit (17 - 8 = 9 = MDL) and the theorem shows
it is not flagged. -/
theorem C1_witness :
    c1RowS2 ∈ (join_and_correct c1Rows [] (avg_blank_chan c1Rows) 1 false).table ∧
    ¬ bdlFlag (mdl_elem c1Rows) c1RowS2 := by
  have hmem : c1RowS2 ∈
      (join_and_correct c1Rows [] (avg_blank_chan c1Rows) 1 false).table := by
    rw [c1_table]; simp
  refine ⟨hmem, ?_⟩
  have h := (C1_amended_thm c1Rows [] 1 false c1RowS2 hmem).2.2
  refine h 17 9 rfl c1_mdl ?_
  show ((17:ℚ):ℝ) - ((8:ℚ):ℝ) = (9:ℝ)
  push_cast
  norm_num

/-- Claim C4 (amended): for every element, whenever at least one merged
channel row passes both recovery bands, the selector picks a row passing
both bands — namely the first passing row in the merged table's order
(keys in first-appearance order, ICV rows before REF-only rows).  There
is no lexicographic tie-break, so the choice follows input row order. -/
theorem C4_amended_thm :
    ∀ (ilo ihi rlo rhi : ℚ) (L R : List RecRow),
      (outerMerge L R).any (passBoth ilo ihi rlo rhi) = true →
        ∃ c pre suf, outerMerge L R = pre ++ c :: suf ∧
          select_best_channel ilo ihi rlo rhi L R = some c ∧
          passBoth ilo ihi rlo rhi c = true ∧
          ∀ m ∈ pre, passBoth ilo ihi rlo rhi m = false := by
  intro ilo ihi rlo rhi L R hany
  obtain ⟨c, pre, suf, hl, hc, hpre, hf⟩ :=
    filter_first (passBoth ilo ihi rlo rhi) (outerMerge L R) hany
  refine ⟨c, pre, suf, hl, ?_, hc, hpre⟩
  have hne : (outerMerge L R).isEmpty = false := by
    rw [hl]; cases pre <;> rfl
  simp only [select_best_channel, hne, hf]
  rfl

/-- Claim C4, counterexample: with both channels A and B passing both
bands at 100 % but B listed first, the selector picks B although A is
lexicographically first and passes both bands; reversing the input row
order flips the selection to A, so the result is input-order dependent,
not a stable channel_id tie-break. -/
theorem C4_counterexample :
    (select_best_channel 90 110 80 120 c4L c4R).map (fun m => m.channel_id) =
      some (strL "B") ∧
    (select_best_channel 90 110 80 120 c4L.reverse c4R.reverse).map
        (fun m => m.channel_id) = some (strL "A") ∧
    passBoth 90 110 80 120 ⟨strL "A", some 100, some 100⟩ = true ∧
    (⟨strL "A", some 100, some 100⟩ : MergedRow) ∈ outerMerge c4L c4R := by
  refine ⟨by decide, by decide, by decide, by decide⟩

/-- Claim C4, witness: in the spec scenario for element As, channel
As75to91_O2 (calibration 98 %, reference 101 %) passes both bands and the
theorem returns it as the selection. -/
theorem C4_witness :
    (outerMerge c4wL c4wR).any (passBoth 90 110 80 120) = true ∧
    ∃ c pre suf, outerMerge c4wL c4wR = pre ++ c :: suf ∧
      select_best_channel 90 110 80 120 c4wL c4wR = some c ∧
      passBoth 90 110 80 120 c = true ∧
      ∀ m ∈ pre, passBoth 90 110 80 120 m = false := by
  exact ⟨by decide, C4_amended_thm 90 110 80 120 c4wL c4wR (by decide)⟩

/-- Claim C6 (code bug): join_and_correct on a run containing the
ordinary sample FIELD_001 with an empty digest table defaults its factor
to 1.0, but records the unmatched-sample list in the attrs metadata of
the single table object it returns (df.attrs in the source), rather than
returning the list alongside the table as a first-class output. -/
theorem C6_bug_eval :
    (join_and_correct c6Rows [] (avg_blank_chan c6Rows) 1 false).attrsUnmatched =
      [strL "FIELD_001"] ∧
    (join_and_correct c6Rows [] (avg_blank_chan c6Rows) 1 false).table =
      [⟨strL "FIELD_001", strL "A", strL "X", some 5, 1, 0, some 5⟩] := by
  constructor
  · simp [c6Rows, join_and_correct, lookupDigest, dedupKeep, isQCName,
      qcTokens, pyContains, pyStartsWith, strL]
  · simp [c6Rows, join_and_correct, lookupDigest, avg_blank_chan,
      chanBlankVals, isBlankRow, correctedValue, pyContains, pyStartsWith,
      strL]

/-- Claim C9 (confirmed): a sample with no dilution-factor match whose
normalized identifier contains ICV, ICB, BLANK or SRM_ anywhere receives
the default factor 1.0 and is omitted from the unmatched-samples list, so
an ordinary sample merely containing such a token is never reported as
unmatched. -/
theorem C9_thm :
    ∀ (rows : List Meas) (digest : List (PyStr × ℚ))
      (chanAvg : PyStr → Option ℚ) (b : Bool) (r : CRow),
      r ∈ (join_and_correct rows digest chanAvg 1 b).table →
      lookupDigest digest r.sample_id = none →
      isQCName r.sample_id = true →
        r.df_used = 1 ∧
        r.sample_id ∉ (join_and_correct rows digest chanAvg 1 b).attrsUnmatched := by
  intro rows digest chanAvg b r hr hnone hqc
  simp only [join_and_correct, List.mem_map] at hr
  obtain ⟨m0, hm0, rfl⟩ := hr
  constructor
  · show (lookupDigest digest m0.sample_id).getD 1 = 1
    have : lookupDigest digest m0.sample_id = none := hnone
    rw [this]
    rfl
  · intro hmem
    simp only [join_and_correct, List.mem_filter] at hmem
    have hq : isQCName m0.sample_id = true := hqc
    rw [hq] at hmem
    simp at hmem

/-- Claim C9, witness: the ordinary sample MICV_SOIL, absent from the
digest table, contains the token ICV, gets factor 1.0 and is not in the
unmatched list. -/
theorem C9_witness :
    c9Row ∈ (join_and_correct c9Rows [] (avg_blank_chan c9Rows) 1 false).table ∧
    lookupDigest [] c9Row.sample_id = none ∧
    isQCName c9Row.sample_id = true ∧
    c9Row.df_used = 1 ∧
    c9Row.sample_id ∉
      (join_and_correct c9Rows [] (avg_blank_chan c9Rows) 1 false).attrsUnmatched := by
  have hmem : c9Row ∈
      (join_and_correct c9Rows [] (avg_blank_chan c9Rows) 1 false).table := by
    rw [c9_table]; exact List.mem_singleton.mpr rfl
  have h := C9_thm c9Rows [] (avg_blank_chan c9Rows) false c9Row hmem
    (by decide) (by decide)
  exact ⟨hmem, by decide, by decide, h.1, h.2⟩

end ICPMS
